import Mathlib

/-
Verification development for the Horizon-MCPs transport layer and tiered
whale-address resolver.

Embedded source files:
  src/common/http.py      (HttpClient.request_with_retry)
  src/helius/client.py    (HeliusClient.rpc)
  src/helius/services.py  (HeliusService.get_token_whale_addresses,
                           HeliusService._get_whales_via_das_pagination,
                           HeliusService._get_known_whale_addresses)

Conventions of the shallow embedding:
  - Python numbers that the code manipulates as floats (ui token amounts,
    SOL thresholds) are modelled as exact decimal values num / 10 ^ exp
    (structure Dec10).  Every number appearing in the resolver is produced
    by decimal string parsing or by division by a power of ten, so this
    set is closed under all operations the code performs; float rounding
    is irrelevant to the control-flow properties proved here.
  - Python exceptions are modelled by the inductive PyErr; fallible calls
    return Except PyErr.
  - The network is modelled by an Env record of oracles: the result of
    get_token_largest_accounts, the result of get_balance per address, and
    the DAS getTokenAccounts page returned by the n-th call of a
    resolution.  The env is fixed for one resolution.
  - Loops are translated to structural recursion; the DAS while loop uses
    the max_iterations counter of the source as fuel.
  - The resolver functions additionally record a trace (the addresses on
    which get_balance was attempted, in call order, and the number of DAS
    page calls); the trace lists record one entry per call attempted,
    whether or not the call raised.
-/

/-- Exact decimal number num / 10 ^ exp, the model of the Python float
values handled by the resolver. -/
structure Dec10 where
  num : Int
  exp : Nat
deriving DecidableEq

/-- Comparison a ≤ b of decimal values, by cross multiplication. -/
def Dec10.le (a b : Dec10) : Bool :=
  a.num * (10 : Int) ^ b.exp ≤ b.num * (10 : Int) ^ a.exp

/-- Comparison a < b of decimal values, by cross multiplication. -/
def Dec10.lt (a b : Dec10) : Bool :=
  a.num * (10 : Int) ^ b.exp < b.num * (10 : Int) ^ a.exp

/-- Python int(q): truncation of a decimal value toward zero. -/
def pyTrunc (q : Dec10) : Int := Int.tdiv q.num ((10 : Int) ^ q.exp)

/-- Division raw / (10 ** dec) of an integer by a (possibly negative)
power of ten, as in services.py line 473. -/
def divPow10 (raw : Int) (dec : Int) : Dec10 :=
  if 0 ≤ dec then ⟨raw, dec.toNat⟩ else ⟨raw * (10 : Int) ^ (-dec).toNat, 0⟩

/-- Segment (contiguous sublist) test on character lists. -/
def hasSegment (pat : List Char) : List Char → Bool
  | [] => pat.isEmpty
  | c :: rest => pat.isPrefixOf (c :: rest) || hasSegment pat rest

/-- Python substring containment: pat in s. -/
def strContains (s pat : String) : Bool := hasSegment pat.data s.data

/-- Model of the Python exceptions distinguished by the embedded code. -/
inductive PyErr
  | runtimeError (msg : String)
  | valueError
  | typeError
  | otherError
deriving DecidableEq

instance exceptDecEq {ε α : Type} [DecidableEq ε] [DecidableEq α] :
    DecidableEq (Except ε α) := fun a b =>
  match a, b with
  | .error e, .error f =>
    if h : e = f then isTrue (by rw [h])
    else isFalse (by intro hc; injection hc; exact h (by assumption))
  | .ok x, .ok y =>
    if h : x = y then isTrue (by rw [h])
    else isFalse (by intro hc; injection hc; exact h (by assumption))
  | .error _, .ok _ => isFalse (by intro hc; exact Except.noConfusion hc)
  | .ok _, .error _ => isFalse (by intro hc; exact Except.noConfusion hc)

/- ------------------------------------------------------------------ -/
/- Transport: src/common/http.py, HttpClient.request_with_retry        -/
/- ------------------------------------------------------------------ -/

/-- Outcome of one call of session.request: a connection-level exception
(DNS failure, refused connection, timeout raised by requests) or an HTTP
response with a status code. -/
inductive AttemptResult
  | conn
  | resp (status : Nat)
deriving DecidableEq

/-- Outcome of request_with_retry: a returned response, an exception from
resp.raise_for_status, or a propagated connection-level exception. -/
inductive HttpOutcome
  | ok (status : Nat)
  | httpError (status : Nat)
  | connError
deriving DecidableEq

/-- Trace of one request_with_retry call: its outcome, the number of
session.request calls made, and the number of time.sleep calls made. -/
structure RetryTrace where
  outcome : HttpOutcome
  requests : Nat
  sleeps : Nat
deriving DecidableEq

/-- Retry condition of http.py line 25: status == 429 or 500 <= status < 600. -/
def retryTransient (status : Nat) : Bool :=
  status == 429 || (decide (500 ≤ status) && decide (status < 600))

/-- Model of resp.raise_for_status(): raises for any status >= 400,
otherwise the following return resp executes. -/
def raiseForStatus (status : Nat) : HttpOutcome :=
  if 400 ≤ status then .httpError status else .ok status

/-- Backoff schedule of http.py line 19, in milliseconds. -/
def httpBackoffsMs : List Nat := [200, 600, 1200]

/-- Loop body of request_with_retry.  The loop runs over the backoff
slots; the remaining slots are the list argument, so the final slot is
reached exactly when that list is a singleton (attempt == len - 1). -/
def requestWithRetryGo (attempts : Nat → AttemptResult) :
    Nat → List Nat → RetryTrace
  | _, [] => ⟨.connError, 0, 0⟩
  | attempt, _ :: rest =>
    match attempts attempt with
    | .conn => ⟨.connError, 1, 0⟩
    | .resp s =>
      if retryTransient s then
        match rest with
        | [] => ⟨raiseForStatus s, 1, 0⟩
        | _ :: _ =>
          let t := requestWithRetryGo attempts (attempt + 1) rest
          ⟨t.outcome, t.requests + 1, t.sleeps + 1⟩
      else ⟨.ok s, 1, 0⟩

/-- HttpClient.request_with_retry on a given sequence of attempt results
(the n-th element is what the n-th session.request call produces). -/
def requestWithRetry (attempts : Nat → AttemptResult) : RetryTrace :=
  requestWithRetryGo attempts 0 httpBackoffsMs

/- ------------------------------------------------------------------ -/
/- RPC gateway: src/helius/client.py, HeliusClient.rpc                 -/
/- ------------------------------------------------------------------ -/

/-- Error object of a JSON-RPC envelope: the code and message fields. -/
structure RpcErrorObj where
  code : Int
  message : String
deriving DecidableEq

/-- Message of the RuntimeError raised by HeliusClient.rpc line 69. -/
def rpcRuntimeErrorMessage (e : RpcErrorObj) : String :=
  "RPC error " ++ toString e.code ++ ": " ++ e.message

/-- Decoded JSON-RPC envelope shape, payloads abstracted over α: a truthy
error field, a result field, or a non-dict / result-free body. -/
inductive RpcData (α : Type)
  | withError (e : RpcErrorObj)
  | withResult (v : α)
  | plain (v : α)

/-- HeliusClient.rpc lines 67-72: a truthy error field raises RuntimeError
with the formatted message; a result field is unwrapped; otherwise the
body is returned as is. -/
def heliusRpc {α : Type} : RpcData α → Except PyErr α
  | .withError e => .error (.runtimeError (rpcRuntimeErrorMessage e))
  | .withResult v => .ok v
  | .plain v => .ok v

/- ------------------------------------------------------------------ -/
/- Whale resolver data model: src/helius/services.py                   -/
/- ------------------------------------------------------------------ -/

/-- Item of get_token_largest_accounts, the fields the resolver reads.
address none models a falsy (missing or empty) address; uiAmount is the
result of float(ui_amount_string), none when the string is falsy or the
conversion raises ValueError / TypeError. -/
structure TokenLargestAccountItem where
  address : Option String
  uiAmount : Option Dec10
deriving DecidableEq

/-- Balance object of a DAS token-account item: uiAmount is the parsed
float(uiAmountString), none when the field is not a string or parsing
raises; decimals is the decimals field when it is an int. -/
structure DasBalance where
  uiAmount : Option Dec10
  decimals : Option Int
deriving DecidableEq

/-- DAS token-account item, the fields the resolver reads: owner (none
models a falsy owner), amount when it is an int, and the balance object
when present. -/
structure DasItem where
  owner : Option String
  amount : Option Int
  balance : Option DasBalance
deriving DecidableEq

/-- One schema-validated DAS getTokenAccounts result: the items list
(raw.items or []) and the cursor (none models a falsy cursor). -/
structure DasPage where
  items : List DasItem
  cursor : Option String
deriving DecidableEq

/-- Network oracle fixed for one resolution: the result of
get_token_largest_accounts, the result of get_balance per address, and
the page produced by the n-th DAS getTokenAccounts call. -/
structure Env where
  tokenLargestAccounts : Except PyErr (List TokenLargestAccountItem)
  balanceLamports : String → Except PyErr Int
  tokenAccountsPage : Nat → Except PyErr DasPage

/-- Default decimal count of services.py line 412. -/
def defaultDecimals : Int := 6

/-- Natural-units amount of a DAS item, services.py lines 455-476: prefer
the parsed balance.uiAmountString; otherwise divide the raw int amount by
10 ** decimals, where decimals is balance.decimals when it is an int and
the hard-coded default 6 otherwise; none means the item is skipped. -/
def itemAmountUi (it : DasItem) : Option Dec10 :=
  let amountUiFromBalance : Option Dec10 :=
    match it.balance with
    | none => none
    | some b => b.uiAmount
  let decimalsForItem : Option Int :=
    match it.balance with
    | none => none
    | some b => b.decimals
  match amountUiFromBalance with
  | some a => some a
  | none =>
    match it.amount with
    | some raw => some (divPow10 raw (decimalsForItem.getD defaultDecimals))
    | none => none

/-- Follows the spec wording for the scan amount computation: prefer
page-supplied decimal metadata (the balance uiAmountString, else the
balance decimals); otherwise use the assetDecimals value fetched for the
mint.  Used only to compare the code against the spec sentence. -/
def specItemAmountUi (assetDecimals : Int) (it : DasItem) : Option Dec10 :=
  match it.balance with
  | some b =>
    match b.uiAmount with
    | some a => some a
    | none =>
      match it.amount with
      | some raw => some (divPow10 raw (b.decimals.getD assetDecimals))
      | none => none
  | none =>
    match it.amount with
    | some raw => some (divPow10 raw assetDecimals)
    | none => none

/-- Lamport threshold of services.py line 482: int(min_sol_balance * 1e9). -/
def lamportThreshold (minSolBalance : Dec10) : Int :=
  pyTrunc ⟨minSolBalance.num * 1000000000, minSolBalance.exp⟩

/- ------------------------------------------------------------------ -/
/- Tier 1: get_token_whale_addresses lines 359-391                     -/
/- ------------------------------------------------------------------ -/

/-- Result of the tier-1 holder loop: the collected whale addresses, the
addresses on which get_balance was attempted (in order), and the
exception that escaped the loop, if any. -/
structure TierOneOut where
  whales : List String
  checks : List String
  err : Option PyErr
deriving DecidableEq

/-- Tier-1 holder loop, services.py lines 365-378: for each holder with a
truthy address and parsable ui amount at least min_amount_ui, call
get_balance; a ValueError or TypeError from the check is swallowed by the
inner except and the loop continues; any other exception escapes; a
holder whose SOL balance (lamports / 1e9) reaches min_sol_balance is
appended, and the loop breaks once max_results addresses are collected. -/
def tier1Go (env : Env) (minAmountUi minSolBalance : Dec10) (maxResults : Nat) :
    List TokenLargestAccountItem → TierOneOut → TierOneOut
  | [], t => t
  | a :: rest, t =>
    match a.address, a.uiAmount with
    | some addr, some amt =>
      if Dec10.le minAmountUi amt then
        match env.balanceLamports addr with
        | .ok lam =>
          if Dec10.le minSolBalance ⟨lam, 9⟩ then
            if maxResults ≤ (t.whales ++ [addr]).length then
              ⟨t.whales ++ [addr], t.checks ++ [addr], none⟩
            else
              tier1Go env minAmountUi minSolBalance maxResults rest
                ⟨t.whales ++ [addr], t.checks ++ [addr], none⟩
          else
            tier1Go env minAmountUi minSolBalance maxResults rest
              ⟨t.whales, t.checks ++ [addr], none⟩
        | .error .valueError =>
          tier1Go env minAmountUi minSolBalance maxResults rest
            ⟨t.whales, t.checks ++ [addr], none⟩
        | .error .typeError =>
          tier1Go env minAmountUi minSolBalance maxResults rest
            ⟨t.whales, t.checks ++ [addr], none⟩
        | .error e => ⟨t.whales, t.checks ++ [addr], some e⟩
      else tier1Go env minAmountUi minSolBalance maxResults rest t
    | _, _ => tier1Go env minAmountUi minSolBalance maxResults rest t

/- ------------------------------------------------------------------ -/
/- Tier 2: _get_whales_via_das_pagination lines 405-494                -/
/- ------------------------------------------------------------------ -/

/-- Per-page item loop, services.py lines 438-487: break once max_results
addresses are collected; skip items with a falsy owner or no computable
amount; for items whose amount reaches min_amount_ui call get_balance
(an exception from it is swallowed and the loop continues) and append the
owner when the lamport balance reaches int(min_sol_balance * 1e9).
Returns the whale list and the balance-check trace. -/
def processPageItems (env : Env) (minAmountUi minSolBalance : Dec10)
    (maxResults : Nat) :
    List DasItem → List String → List String → List String × List String
  | [], whales, checks => (whales, checks)
  | it :: rest, whales, checks =>
    if maxResults ≤ whales.length then (whales, checks)
    else
      match it.owner with
      | none => processPageItems env minAmountUi minSolBalance maxResults rest whales checks
      | some owner =>
        match itemAmountUi it with
        | none => processPageItems env minAmountUi minSolBalance maxResults rest whales checks
        | some amt =>
          if Dec10.le minAmountUi amt then
            match env.balanceLamports owner with
            | .error _ =>
              processPageItems env minAmountUi minSolBalance maxResults rest
                whales (checks ++ [owner])
            | .ok lam =>
              if lamportThreshold minSolBalance ≤ lam then
                processPageItems env minAmountUi minSolBalance maxResults rest
                  (whales ++ [owner]) (checks ++ [owner])
              else
                processPageItems env minAmountUi minSolBalance maxResults rest
                  whales (checks ++ [owner])
          else processPageItems env minAmountUi minSolBalance maxResults rest whales checks

/-- Trace of the DAS pagination loop: collected whales, balance-check
trace, and the number of getTokenAccounts calls made. -/
structure DasTrace where
  whales : List String
  checks : List String
  calls : Nat
deriving DecidableEq

/-- Python truthiness of the cursor, services.py line 491. -/
def cursorTruthy : Option String → Bool
  | none => false
  | some s => !s.isEmpty

/-- Safety bound of services.py line 409. -/
def maxDasIterations : Nat := 20

/-- DAS while loop, services.py lines 414-494: while fewer than
max_results whales are collected and fewer than max_iterations pages were
fetched, fetch the next page (an exception breaks the loop), process its
items, then advance; a falsy cursor ends the scan.  The fuel argument is
max_iterations minus the iterations already performed. -/
def dasLoopGo (env : Env) (minAmountUi minSolBalance : Dec10)
    (maxResults : Nat) : Nat → Nat → DasTrace → DasTrace
  | 0, _, t => t
  | fuel + 1, callIdx, t =>
    if maxResults ≤ t.whales.length then t
    else
      match env.tokenAccountsPage callIdx with
      | .error _ => ⟨t.whales, t.checks, t.calls + 1⟩
      | .ok page =>
        let wc := processPageItems env minAmountUi minSolBalance maxResults
          page.items t.whales t.checks
        if cursorTruthy page.cursor then
          dasLoopGo env minAmountUi minSolBalance maxResults fuel
            (callIdx + 1) ⟨wc.1, wc.2, t.calls + 1⟩
        else ⟨wc.1, wc.2, t.calls + 1⟩

/- ------------------------------------------------------------------ -/
/- Tier 3: _get_known_whale_addresses lines 513-549 and the fallback   -/
/- ------------------------------------------------------------------ -/

/-- Hard-coded known-whale table of services.py lines 522-549, keyed by
mint; empty off mainnet and for unknown mints. -/
def getKnownWhaleAddresses (mint network : String) : List String :=
  if network ≠ "mainnet" then []
  else if mint = "EPjFWdd5AufqSSqeM2qN1xzybapC8G4wEGGkZwyTDt1v" then
    [ "BQy5rNRxLfcaK6554PMzsg4VJsFXzwGnAnayb8TZKgZX"
    , "CqCDNi1PSB7cP3rDxU12YKjVDqbJeZ9rGhxZxkkwi6mC"
    , "9RfZwn2Prux6QesG1Noo4HzMEBkMvoYdkLRMKEZf86tT"
    , "H8W3ctz92svYXCbxDdZGTCm66RBkXqudLV8Xjhj8HBJd"
    , "9WzDXwBbmkg8ZTbNMqUxvQRAyrZzDsGYdLVL9zYtAWWM" ]
  else if mint = "So11111111111111111111111111111111111111112" then
    [ "GjphYQcbP1m3FuDyCTUJf2mUMxKME2QyELubyyi8gH4E"
    , "J1S9H3QjnRtBbbuD4HjPV6RpRhwuk4zKbxsnCHuTgh9w"
    , "Bd7VSwkqpwHjKPMRLQUPqTk5W7c1VRNDfSQ1YTVMQ52v"
    , "AhbYQB2Kw4tG3e8YmK8j5zJ4r3F8VXf6wUgkEoWsGkAJ"
    , "DfXygSm4jCyNCybVYYK6DwvWqjKee8pbDmJGcLWNDXjh" ]
  else if mint = "Es9vMFrzaCERmJfrF4H2FYD4KCoNkY11McCe8BenwNYB" then
    [ "Q6LZqDG2J4E7KZAkfN5X9w3J8c7VGp9LhJy8aK5mYfDq"
    , "HAkqJgFCPRhtfvXBMVQ9BfrYPKQhcMp3FGVj9bwyNNMp"
    , "J1S9H3QjnRtBbbuD4HjPV6RpRhwuk4zKbxsnCHuTgh9w"
    , "Bd7VSwkqpwHjKPMRLQUPqTk5W7c1VRNDfSQ1YTVMQ52v"
    , "AhbYQB2Kw4tG3e8YmK8j5zJ4r3F8VXf6wUgkEoWsGkAJ" ]
  else []

/-- Known-whale filter loop, services.py lines 502-510: break once
max_results addresses are kept; an exception from get_balance is
swallowed; keep the addresses whose lamport balance reaches
int(min_sol_balance * 1e9).  Returns the kept list and the check trace. -/
def filterKnownGo (env : Env) (minSolBalance : Dec10) (maxResults : Nat) :
    List String → List String → List String → List String × List String
  | [], filtered, checks => (filtered, checks)
  | addr :: rest, filtered, checks =>
    if maxResults ≤ filtered.length then (filtered, checks)
    else
      match env.balanceLamports addr with
      | .error _ =>
        filterKnownGo env minSolBalance maxResults rest filtered (checks ++ [addr])
      | .ok lam =>
        if lamportThreshold minSolBalance ≤ lam then
          filterKnownGo env minSolBalance maxResults rest
            (filtered ++ [addr]) (checks ++ [addr])
        else
          filterKnownGo env minSolBalance maxResults rest filtered (checks ++ [addr])

/-- Trace of _get_whales_via_das_pagination: the returned list, the
whales and check trace of the paginated scan, the number of DAS calls,
and the check trace of the known-whale filter. -/
structure DasResultTrace where
  result : List String
  scanWhales : List String
  scanChecks : List String
  scanCalls : Nat
  knownChecks : List String
deriving DecidableEq

/-- _get_whales_via_das_pagination lines 405-511: run the paginated scan;
a nonempty scan result is returned directly; otherwise filter the
known-whale table by SOL balance and return the kept addresses, or the
first max_results table entries when none is kept. -/
def getWhalesViaDasPagination (env : Env) (mint network : String)
    (minAmountUi minSolBalance : Dec10) (maxResults : Nat) : DasResultTrace :=
  let t := dasLoopGo env minAmountUi minSolBalance maxResults
    maxDasIterations 0 ⟨[], [], 0⟩
  if t.whales.isEmpty then
    let known := getKnownWhaleAddresses mint network
    let fk := filterKnownGo env minSolBalance maxResults known [] []
    ⟨if fk.1.isEmpty then known.take maxResults else fk.1,
      t.whales, t.checks, t.calls, fk.2⟩
  else ⟨t.whales, t.whales, t.checks, t.calls, []⟩

/- ------------------------------------------------------------------ -/
/- Top level: get_token_whale_addresses lines 359-391                  -/
/- ------------------------------------------------------------------ -/

/-- Trace of one get_token_whale_addresses resolution. -/
structure ResolveTrace where
  result : Except PyErr (List String)
  tier1Whales : List String
  tier1Checks : List String
  usedDas : Bool
  das : DasResultTrace
deriving DecidableEq

/-- Empty DAS trace, for resolutions that never reach the DAS tier. -/
def emptyDasResultTrace : DasResultTrace := ⟨[], [], [], 0, []⟩

/-- get_token_whale_addresses lines 359-391: try the tier-1 holder loop;
a RuntimeError whose text contains the substring of line 384 falls
through to the DAS pagination tier, any other RuntimeError is re-raised
and any other exception propagates; an empty holder list or an empty
tier-1 result also falls through to the DAS tier; a nonempty tier-1
result is returned directly. -/
def getTokenWhaleAddressesTraced (env : Env) (mint network : String)
    (minAmountUi minSolBalance : Dec10) (maxResults : Nat) : ResolveTrace :=
  let goDas := fun (t1w t1c : List String) =>
    let d := getWhalesViaDasPagination env mint network minAmountUi
      minSolBalance maxResults
    ResolveTrace.mk (.ok d.result) t1w t1c true d
  match env.tokenLargestAccounts with
  | .error (.runtimeError m) =>
    if strContains m "Too many accounts" then goDas [] []
    else ⟨.error (.runtimeError m), [], [], false, emptyDasResultTrace⟩
  | .error e => ⟨.error e, [], [], false, emptyDasResultTrace⟩
  | .ok largest =>
    if largest.isEmpty then goDas [] []
    else
      let t := tier1Go env minAmountUi minSolBalance maxResults largest ⟨[], [], none⟩
      match t.err with
      | some (.runtimeError m) =>
        if strContains m "Too many accounts" then goDas t.whales t.checks
        else ⟨.error (.runtimeError m), t.whales, t.checks, false, emptyDasResultTrace⟩
      | some e => ⟨.error e, t.whales, t.checks, false, emptyDasResultTrace⟩
      | none =>
        if t.whales.isEmpty then goDas t.whales t.checks
        else ⟨.ok t.whales, t.whales, t.checks, false, emptyDasResultTrace⟩

/-- Result of get_token_whale_addresses (the trace dropped). -/
def getTokenWhaleAddresses (env : Env) (mint network : String)
    (minAmountUi minSolBalance : Dec10) (maxResults : Nat) :
    Except PyErr (List String) :=
  (getTokenWhaleAddressesTraced env mint network minAmountUi minSolBalance
    maxResults).result

/- ------------------------------------------------------------------ -/
/- Specification predicates used by theorem statements                 -/
/- ------------------------------------------------------------------ -/

/-- Holder that the tier-1 loop passes over without collecting it and
without raising: a falsy address, an unparsable amount, an amount below
min_amount_ui, or a balance check that fails or raises one of the two
swallowed exception types. -/
def tier1Skips (env : Env) (minAmountUi minSolBalance : Dec10)
    (a : TokenLargestAccountItem) : Bool :=
  match a.address, a.uiAmount with
  | some addr, some amt =>
    if Dec10.le minAmountUi amt then
      match env.balanceLamports addr with
      | .ok lam => !Dec10.le minSolBalance ⟨lam, 9⟩
      | .error .valueError => true
      | .error .typeError => true
      | .error _ => false
    else true
  | _, _ => true

/-- Addresses of the holders on which the tier-1 loop attempts a balance
check: those with a truthy address, a parsable amount, and amount at
least min_amount_ui, in list order. -/
def tier1CheckTargets (minAmountUi : Dec10)
    (hs : List TokenLargestAccountItem) : List String :=
  hs.filterMap fun a =>
    match a.address, a.uiAmount with
    | some addr, some amt =>
      if Dec10.le minAmountUi amt then some addr else none
    | _, _ => none

/-- Owners of the DAS page items that qualify for a balance check: truthy
owner, computable amount, amount at least min_amount_ui, in page order. -/
def qualifyingOwners (minAmountUi : Dec10) (items : List DasItem) : List String :=
  items.filterMap fun it =>
    match it.owner with
    | some owner =>
      match itemAmountUi it with
      | some amt => if Dec10.le minAmountUi amt then some owner else none
      | none => none
    | none => none

/-- Address whose tier-1 secondary check succeeded against env: the
get_balance call returned lamports whose SOL value reaches the
min_sol_balance threshold. -/
def passesTier1Check (env : Env) (minSolBalance : Dec10) (addr : String) : Prop :=
  ∃ lam, env.balanceLamports addr = .ok lam
    ∧ Dec10.le minSolBalance ⟨lam, 9⟩ = true

/-- Address whose scan-tier secondary check succeeded against env: the
get_balance call returned at least int(min_sol_balance * 1e9) lamports. -/
def passesScanCheck (env : Env) (minSolBalance : Dec10) (addr : String) : Prop :=
  ∃ lam, env.balanceLamports addr = .ok lam ∧ lamportThreshold minSolBalance ≤ lam

/- ------------------------------------------------------------------ -/
/- Concrete environments for counterexamples and witnesses             -/
/- ------------------------------------------------------------------ -/

/-- Decimal with value n. -/
def decOf (n : Int) : Dec10 := ⟨n, 0⟩

/-- Decimal with value 0.1, the default min_sol_balance. -/
def pointOne : Dec10 := ⟨1, 1⟩

/-- Env with two top holders of amount 2000 that both pass the SOL check. -/
def envTwoWinners : Env :=
  ⟨.ok [⟨some "A", some (decOf 2000)⟩, ⟨some "B", some (decOf 2000)⟩],
   fun _ => .ok 1000000000, fun _ => .error .otherError⟩

/-- Env where the direct query fails with the too-many-accounts message,
the single scanned page holds one below-threshold candidate Z whose SOL
balance would pass, and the scan ends after that page. -/
def envScanBelowThreshold : Env :=
  ⟨.error (.runtimeError "RPC error -32602: Too many accounts"),
   fun _ => .ok 1000000000,
   fun n => if n = 0 then .ok ⟨[⟨some "Z", some 300000000, none⟩], none⟩
            else .error .otherError⟩

/-- Env where the direct query fails with the too-many-accounts message,
the scan yields nothing, and every SOL balance is zero. -/
def envKnownAllFail : Env :=
  ⟨.error (.runtimeError "RPC error -32602: Too many accounts"),
   fun _ => .ok 0,
   fun _ => .error .otherError⟩

/-- Env where the direct query fails with the too-many-accounts message
and one scanned page holds two qualifying candidates that both pass. -/
def envTwoQualifying : Env :=
  ⟨.error (.runtimeError "RPC error -32602: Too many accounts"),
   fun _ => .ok 1000000000,
   fun n => if n = 0 then
      .ok ⟨[⟨some "A", some 2000000000, none⟩, ⟨some "B", some 3000000000, none⟩], none⟩
    else .error .otherError⟩

/-- Env whose direct query raises the gateway-formatted RuntimeError with
the canonical wording. -/
def envTooManyExact : Env :=
  ⟨.error (.runtimeError (rpcRuntimeErrorMessage ⟨-32602, "Too many accounts"⟩)),
   fun _ => .ok 0, fun _ => .error .otherError⟩

/-- Env whose direct query raises the gateway-formatted RuntimeError with
the same meaning in different wording (lower case). -/
def envTooManyLower : Env :=
  ⟨.error (.runtimeError (rpcRuntimeErrorMessage ⟨-32602, "too many accounts"⟩)),
   fun _ => .ok 0, fun _ => .error .otherError⟩

/-- Env with one low holder, one passing holder, and one further holder,
used to witness the tier-1 first-winner theorem. -/
def envFirstWinner : Env :=
  ⟨.ok [⟨some "P", some (decOf 5)⟩, ⟨some "A", some (decOf 2000)⟩,
        ⟨some "B", some (decOf 3000)⟩],
   fun _ => .ok 1000000000, fun _ => .error .otherError⟩

/-- Env with a single holder below the amount threshold, used to witness
the tier fallthrough theorem. -/
def envOneLowHolder : Env :=
  ⟨.ok [⟨some "X", some (decOf 1)⟩],
   fun _ => .ok 1000000000, fun _ => .error .otherError⟩

/-- Env with a single passing holder, used to witness the verification
theorem. -/
def envOneWinner : Env :=
  ⟨.ok [⟨some "A", some (decOf 2000)⟩],
   fun _ => .ok 1000000000, fun _ => .error .otherError⟩

/- ------------------------------------------------------------------ -/
/- Helper lemmas                                                       -/
/- ------------------------------------------------------------------ -/

/-- One-step unfolding of the retry loop when at least two slots remain. -/
theorem requestWithRetryGo_cons (attempts : Nat → AttemptResult)
    (a0 b c : Nat) (rs : List Nat) :
    requestWithRetryGo attempts a0 (b :: c :: rs)
      = match attempts a0 with
        | .conn => ⟨.connError, 1, 0⟩
        | .resp s =>
          if retryTransient s then
            ⟨(requestWithRetryGo attempts (a0 + 1) (c :: rs)).outcome,
             (requestWithRetryGo attempts (a0 + 1) (c :: rs)).requests + 1,
             (requestWithRetryGo attempts (a0 + 1) (c :: rs)).sleeps + 1⟩
          else ⟨.ok s, 1, 0⟩ := rfl

/-- Every request of a retry loop other than the last one was a response
with a transient status: the loop only continues past an attempt after
classifying it as retryable. -/
theorem requestWithRetryGo_retried (attempts : Nat → AttemptResult) :
    ∀ (bs : List Nat) (a0 i : Nat),
      i + 1 < (requestWithRetryGo attempts a0 bs).requests →
      ∃ s, attempts (a0 + i) = .resp s ∧ retryTransient s = true := by
  intro bs
  induction bs with
  | nil => intro a0 i h; simp [requestWithRetryGo] at h
  | cons b rest ih =>
    intro a0 i h
    cases hA : attempts a0 with
    | conn => simp [requestWithRetryGo, hA] at h
    | resp s =>
      by_cases hr : retryTransient s = true
      · cases rest with
        | nil => simp [requestWithRetryGo, hA, hr] at h
        | cons c rs =>
          rw [requestWithRetryGo_cons, hA] at h
          simp only [hr, if_true] at h
          cases i with
          | zero => exact ⟨s, by simpa using hA, hr⟩
          | succ j =>
            obtain ⟨s', h1, h2⟩ := ih (a0 + 1) j (by omega)
            exact ⟨s', by rw [show a0 + (j + 1) = a0 + 1 + j by omega]; exact h1, h2⟩
      · simp [requestWithRetryGo, hA, hr] at h

/- ------------------------------------------------------------------ -/
/- Claim theorems: transport                                           -/
/- ------------------------------------------------------------------ -/

/-- Attempt sequence 500, 429, 200, ... -/
def seq500_429_200 : Nat → AttemptResult :=
  fun n => if n = 0 then .resp 500 else if n = 1 then .resp 429 else .resp 200

/-- Attempt sequence of unending 500 responses. -/
def seqAll500 : Nat → AttemptResult := fun _ => .resp 500

/-- C5: with the default three-slot policy, the response sequence
[500, 429, 200] yields the 200 response after exactly three requests and
two sleeps; an all-500 sequence ends after exactly three requests and two
sleeps with the final failing response surfaced through
raise_for_status, so no fourth request is made. -/
theorem transport_retry_counts :
    requestWithRetry seq500_429_200 = ⟨.ok 200, 3, 2⟩
  ∧ requestWithRetry seqAll500 = ⟨.httpError 500, 3, 2⟩ := by decide

/-- C6: only a 429 or 5xx response is retried: a first response with a
non-transient status (success or client error) is returned unchanged
after one request and no sleep; a connection-level failure propagates
immediately after one request and no sleep, and is never retried; and
every attempt before the last one of a resolution got a response whose
status was transient (429 or 5xx). -/
theorem transport_retry_classification (attempts : Nat → AttemptResult) :
    (∀ s, attempts 0 = .resp s → retryTransient s = false →
      requestWithRetry attempts = ⟨.ok s, 1, 0⟩)
  ∧ (attempts 0 = .conn → requestWithRetry attempts = ⟨.connError, 1, 0⟩)
  ∧ (∀ i, i + 1 < (requestWithRetry attempts).requests →
      ∃ s, attempts i = .resp s ∧ retryTransient s = true) := by
  refine ⟨?_, ?_, ?_⟩
  · intro s h0 hr
    simp [requestWithRetry, httpBackoffsMs, requestWithRetryGo, h0, hr]
  · intro h0
    simp [requestWithRetry, httpBackoffsMs, requestWithRetryGo, h0]
  · intro i h
    have := requestWithRetryGo_retried attempts httpBackoffsMs 0 i h
    simpa using this

/-- Witness for C6: a 404 response is returned unchanged without retry. -/
theorem transport_retry_classification_witness :
    requestWithRetry (fun _ => .resp 404) = ⟨.ok 404, 1, 0⟩ :=
  (transport_retry_classification (fun _ => .resp 404)).1 404 rfl (by decide)

/-- Skipped holders only extend the balance-check trace with the targets
of their qualifying members; the collected whales stay empty and the loop
proceeds to the remaining holders. -/
theorem tier1Go_skip_leading (env : Env) (mA mS : Dec10) (maxR : Nat) :
    ∀ (pre : List TokenLargestAccountItem),
      (∀ a ∈ pre, tier1Skips env mA mS a = true) →
      ∀ (rest : List TokenLargestAccountItem) (cs : List String),
        tier1Go env mA mS maxR (pre ++ rest) ⟨[], cs, none⟩
          = tier1Go env mA mS maxR rest ⟨[], cs ++ tier1CheckTargets mA pre, none⟩ := by
  intro pre
  induction pre with
  | nil => intro _ rest cs; simp [tier1CheckTargets]
  | cons a pre ih =>
    intro hpre rest cs
    have ha := hpre a (List.mem_cons_self a pre)
    have hpre' : ∀ x ∈ pre, tier1Skips env mA mS x = true :=
      fun x hx => hpre x (List.mem_cons_of_mem a hx)
    obtain ⟨aAddr, aAmt⟩ := a
    rw [List.cons_append]
    cases aAddr with
    | none =>
      simp only [tier1Go]
      rw [ih hpre' rest cs]
      simp [tier1CheckTargets]
    | some addr =>
      cases aAmt with
      | none =>
        simp only [tier1Go]
        rw [ih hpre' rest cs]
        simp [tier1CheckTargets]
      | some amt =>
        cases hq : Dec10.le mA amt with
        | false =>
          simp only [tier1Go, hq, Bool.false_eq_true, if_false]
          rw [ih hpre' rest cs]
          simp [tier1CheckTargets, hq]
        | true =>
          simp only [tier1Skips, hq, if_true] at ha
          cases hB : env.balanceLamports addr with
          | ok lam =>
            rw [hB] at ha
            have hfail : Dec10.le mS ⟨lam, 9⟩ = false := by
              cases hle : Dec10.le mS ⟨lam, 9⟩ <;> simp [hle] at ha ⊢
            simp only [tier1Go, hq, if_true, hB, hfail, Bool.false_eq_true, if_false]
            rw [ih hpre' rest (cs ++ [addr])]
            simp [tier1CheckTargets, hq]
          | error e =>
            rw [hB] at ha
            cases e with
            | runtimeError m => simp at ha
            | otherError => simp at ha
            | valueError =>
              simp only [tier1Go, hq, if_true, hB]
              rw [ih hpre' rest (cs ++ [addr])]
              simp [tier1CheckTargets, hq]
            | typeError =>
              simp only [tier1Go, hq, if_true, hB]
              rw [ih hpre' rest (cs ++ [addr])]
              simp [tier1CheckTargets, hq]

/- ------------------------------------------------------------------ -/
/- Claim theorems: tier-1 sequencing                                   -/
/- ------------------------------------------------------------------ -/

/-- C2 counterexample: with two top holders A and B that both qualify and
both pass, the resolver balance-checks B even though A (holder k = 0) had
already satisfied both constraints, and it returns both addresses rather
than only the address of holder k. -/
theorem tier1_continues_after_first_winner :
    (getTokenWhaleAddressesTraced envTwoWinners "M" "mainnet"
        (decOf 1000) pointOne 10).result = .ok ["A", "B"]
  ∧ (getTokenWhaleAddressesTraced envTwoWinners "M" "mainnet"
        (decOf 1000) pointOne 10).tier1Checks = ["A", "B"] := by decide

/-- C2 amended: with max_results = 1, when every holder before k is
skipped (fails a constraint or its check raises a swallowed error) and
holder k satisfies both constraints, the resolver returns exactly the
address of holder k, and the balance-check trace covers only the
qualifying holders up to and including k — no holder after k is
checked. -/
theorem tier1_first_winner_single_result (env : Env) (mint network : String)
    (mA mS : Dec10) (pre post : List TokenLargestAccountItem)
    (addr : String) (amt : Dec10) (lam : Int)
    (hpre : ∀ a ∈ pre, tier1Skips env mA mS a = true)
    (hAmt : Dec10.le mA amt = true)
    (hBal : env.balanceLamports addr = .ok lam)
    (hPass : Dec10.le mS ⟨lam, 9⟩ = true)
    (hEnv : env.tokenLargestAccounts = .ok (pre ++ ⟨some addr, some amt⟩ :: post)) :
    (getTokenWhaleAddressesTraced env mint network mA mS 1).result = .ok [addr]
  ∧ (getTokenWhaleAddressesTraced env mint network mA mS 1).tier1Checks
      = tier1CheckTargets mA pre ++ [addr] := by
  have hT : tier1Go env mA mS 1 (pre ++ ⟨some addr, some amt⟩ :: post) ⟨[], [], none⟩
      = ⟨[addr], tier1CheckTargets mA pre ++ [addr], none⟩ := by
    rw [tier1Go_skip_leading env mA mS 1 pre hpre]
    simp [tier1Go, hAmt, hBal, hPass]
  have hne : (pre ++ (⟨some addr, some amt⟩ : TokenLargestAccountItem) :: post).isEmpty
      = false := by cases pre <;> rfl
  unfold getTokenWhaleAddressesTraced
  rw [hEnv]
  simp only [hne, Bool.false_eq_true, if_false, hT]
  simp

/-- Witness for the amended C2 theorem: one low holder, then winner A,
then a further holder B; only A is returned and B is never checked. -/
theorem tier1_first_winner_single_result_witness :
    (getTokenWhaleAddressesTraced envFirstWinner "M" "mainnet"
        (decOf 1000) pointOne 1).result = .ok ["A"]
  ∧ (getTokenWhaleAddressesTraced envFirstWinner "M" "mainnet"
        (decOf 1000) pointOne 1).tier1Checks
      = tier1CheckTargets (decOf 1000) [⟨some "P", some (decOf 5)⟩] ++ ["A"] :=
  tier1_first_winner_single_result envFirstWinner "M" "mainnet"
    (decOf 1000) pointOne [⟨some "P", some (decOf 5)⟩]
    [⟨some "B", some (decOf 3000)⟩] "A" (decOf 2000) 1000000000
    (by decide) (by decide) rfl (by decide) rfl

/- ------------------------------------------------------------------ -/
/- Claim theorems: tier fallthrough                                    -/
/- ------------------------------------------------------------------ -/

/-- C10: when the direct top-holder query succeeds but the tier-1 loop
ends without collecting any whale address and without raising — because
the holder list is empty or every holder is skipped or fails its check —
the resolver proceeds to the paginated DAS fallback. -/
theorem tier1_empty_falls_through_to_das (env : Env) (mint network : String)
    (mA mS : Dec10) (maxR : Nat) (largest : List TokenLargestAccountItem)
    (hEnv : env.tokenLargestAccounts = .ok largest)
    (h : largest = []
       ∨ ((tier1Go env mA mS maxR largest ⟨[], [], none⟩).whales = []
          ∧ (tier1Go env mA mS maxR largest ⟨[], [], none⟩).err = none)) :
    (getTokenWhaleAddressesTraced env mint network mA mS maxR).usedDas = true := by
  unfold getTokenWhaleAddressesTraced
  rw [hEnv]
  rcases h with h | ⟨h1, h2⟩
  · subst h; simp
  · by_cases hE : largest.isEmpty
    · simp [hE]
    · simp only [hE, Bool.false_eq_true, if_false, h1, h2]
      simp

/-- Witness for C10: a single holder below the amount threshold makes the
resolver fall through to the DAS tier. -/
theorem tier1_empty_falls_through_to_das_witness :
    (getTokenWhaleAddressesTraced envOneLowHolder "M" "mainnet"
        (decOf 1000) pointOne 10).usedDas = true :=
  tier1_empty_falls_through_to_das envOneLowHolder "M" "mainnet"
    (decOf 1000) pointOne 10 [⟨some "X", some (decOf 1)⟩] rfl
    (Or.inr ⟨by decide, by decide⟩)

/-- Each loop turn of the DAS scan makes at most one getTokenAccounts
call, so the call count grows by at most the fuel. -/
theorem dasLoopGo_calls_le (env : Env) (mA mS : Dec10) (maxR : Nat) :
    ∀ (fuel callIdx : Nat) (t : DasTrace),
      (dasLoopGo env mA mS maxR fuel callIdx t).calls ≤ t.calls + fuel := by
  intro fuel
  induction fuel with
  | zero => intro idx t; simp [dasLoopGo]
  | succ n ih =>
    intro idx t
    by_cases hw : maxR ≤ t.whales.length
    · simp [dasLoopGo, hw]
    · cases hp : env.tokenAccountsPage idx with
      | error e => simp [dasLoopGo, hw, hp]
      | ok page =>
        by_cases hc : cursorTruthy page.cursor
        · have hrec := ih (idx + 1)
            ⟨(processPageItems env mA mS maxR page.items t.whales t.checks).1,
             (processPageItems env mA mS maxR page.items t.whales t.checks).2,
             t.calls + 1⟩
          simp only [dasLoopGo, hw, if_false, hp, hc, if_true] at hrec ⊢
          simp at hrec ⊢
          omega
        · simp [dasLoopGo, hw, hp, hc]

/-- Resolution traces come in exactly two shapes: the DAS tier was not
used and the stored DAS trace is empty, or it was used and the result is
the list returned by the DAS pagination function. -/
theorem resolve_das_split (env : Env) (mint network : String)
    (mA mS : Dec10) (maxR : Nat) :
    ((getTokenWhaleAddressesTraced env mint network mA mS maxR).usedDas = false
      ∧ (getTokenWhaleAddressesTraced env mint network mA mS maxR).das
          = emptyDasResultTrace)
  ∨ ((getTokenWhaleAddressesTraced env mint network mA mS maxR).usedDas = true
      ∧ (getTokenWhaleAddressesTraced env mint network mA mS maxR).das
          = getWhalesViaDasPagination env mint network mA mS maxR
      ∧ (getTokenWhaleAddressesTraced env mint network mA mS maxR).result
          = .ok (getWhalesViaDasPagination env mint network mA mS maxR).result) := by
  unfold getTokenWhaleAddressesTraced
  cases hE : env.tokenLargestAccounts with
  | error e =>
    cases e with
    | runtimeError m =>
      by_cases hs : strContains m "Too many accounts" = true
      · right; simp [hs]
      · left; simp [hs]
    | valueError => left; simp
    | typeError => left; simp
    | otherError => left; simp
  | ok largest =>
    by_cases hEm : largest.isEmpty
    · right; simp [hEm]
    · cases hErr : (tier1Go env mA mS maxR largest ⟨[], [], none⟩).err with
      | none =>
        by_cases hW : (tier1Go env mA mS maxR largest ⟨[], [], none⟩).whales.isEmpty
        · right; simp [hEm, hErr, hW]
        · left; simp [hEm, hErr, hW]
      | some e =>
        cases e with
        | runtimeError m =>
          by_cases hs : strContains m "Too many accounts" = true
          · right; simp [hEm, hErr, hs]
          · left; simp [hEm, hErr, hs]
        | valueError => left; simp [hEm, hErr]
        | typeError => left; simp [hEm, hErr]
        | otherError => left; simp [hEm, hErr]

/-- Scan fields of the DAS pagination trace agree with the loop trace. -/
theorem getWhalesViaDasPagination_scan (env : Env) (mint network : String)
    (mA mS : Dec10) (maxR : Nat) :
    (getWhalesViaDasPagination env mint network mA mS maxR).scanCalls
        = (dasLoopGo env mA mS maxR maxDasIterations 0 ⟨[], [], 0⟩).calls
  ∧ (getWhalesViaDasPagination env mint network mA mS maxR).scanWhales
        = (dasLoopGo env mA mS maxR maxDasIterations 0 ⟨[], [], 0⟩).whales := by
  by_cases h : (dasLoopGo env mA mS maxR maxDasIterations 0 ⟨[], [], 0⟩).whales.isEmpty
  · simp [getWhalesViaDasPagination, h]
  · simp [getWhalesViaDasPagination, h]

/- ------------------------------------------------------------------ -/
/- Claim theorems: iteration bound                                     -/
/- ------------------------------------------------------------------ -/

/-- C8: the resolution makes at most max_iterations = 20 DAS
getTokenAccounts calls, and in general a scan started with fuel N makes
at most N such calls, even when every page returns a further cursor. -/
theorem das_scan_iteration_bound (env : Env) (mint network : String)
    (mA mS : Dec10) (maxR : Nat) :
    (getTokenWhaleAddressesTraced env mint network mA mS maxR).das.scanCalls
        ≤ maxDasIterations
  ∧ ∀ fuel callIdx,
      (dasLoopGo env mA mS maxR fuel callIdx ⟨[], [], 0⟩).calls ≤ fuel := by
  constructor
  · rcases resolve_das_split env mint network mA mS maxR with ⟨_, h2⟩ | ⟨_, h2, _⟩
    · rw [h2]; decide
    · rw [h2, (getWhalesViaDasPagination_scan env mint network mA mS maxR).1]
      have := dasLoopGo_calls_le env mA mS maxR maxDasIterations 0 ⟨[], [], 0⟩
      simpa using this
  · intro fuel callIdx
    have := dasLoopGo_calls_le env mA mS maxR fuel callIdx ⟨[], [], 0⟩
    simpa using this

/-- Addresses kept by the known-whale filter come from the accumulator or
from the candidate list. -/
theorem filterKnownGo_subset (env : Env) (mS : Dec10) (maxR : Nat) :
    ∀ (cands acc checks : List String),
      ∀ x ∈ (filterKnownGo env mS maxR cands acc checks).1, x ∈ acc ∨ x ∈ cands := by
  intro cands
  induction cands with
  | nil =>
    intro acc checks x hx
    left
    simpa [filterKnownGo] using hx
  | cons addr rest ih =>
    intro acc checks x hx
    by_cases hm : maxR ≤ acc.length
    · simp only [filterKnownGo, hm, if_true] at hx
      exact Or.inl hx
    · simp only [filterKnownGo, hm, if_false] at hx
      cases hB : env.balanceLamports addr with
      | error e =>
        simp only [hB] at hx
        rcases ih acc (checks ++ [addr]) x hx with h | h
        · exact Or.inl h
        · exact Or.inr (List.mem_cons_of_mem addr h)
      | ok lam =>
        simp only [hB] at hx
        by_cases ht : lamportThreshold mS ≤ lam
        · rw [if_pos ht] at hx
          rcases ih (acc ++ [addr]) (checks ++ [addr]) x hx with h | h
          · rcases List.mem_append.mp h with h0 | h0
            · exact Or.inl h0
            · rcases List.mem_singleton.mp h0 with rfl
              exact Or.inr (List.mem_cons_self _ _)
          · exact Or.inr (List.mem_cons_of_mem addr h)
        · rw [if_neg ht] at hx
          rcases ih acc (checks ++ [addr]) x hx with h | h
          · exact Or.inl h
          · exact Or.inr (List.mem_cons_of_mem addr h)

/-- When the paginated scan collects nothing, whatever the DAS tier
returns comes from the hard-coded known-whale table. -/
theorem dasPagination_result_subset_known (env : Env) (mint network : String)
    (mA mS : Dec10) (maxR : Nat)
    (h : (getWhalesViaDasPagination env mint network mA mS maxR).scanWhales = []) :
    (getWhalesViaDasPagination env mint network mA mS maxR).result
      ⊆ getKnownWhaleAddresses mint network := by
  have hW : (dasLoopGo env mA mS maxR maxDasIterations 0 ⟨[], [], 0⟩).whales = [] := by
    rw [← (getWhalesViaDasPagination_scan env mint network mA mS maxR).2]
    exact h
  have hEm : (dasLoopGo env mA mS maxR maxDasIterations 0 ⟨[], [], 0⟩).whales.isEmpty
      = true := by simp [hW]
  simp only [getWhalesViaDasPagination, hEm, if_true]
  by_cases hf : (filterKnownGo env mS maxR (getKnownWhaleAddresses mint network) [] []).1.isEmpty
  · simp only [hf, if_true]
    exact List.take_subset maxR (getKnownWhaleAddresses mint network)
  · simp only [hf, Bool.false_eq_true, if_false]
    intro x hx
    rcases filterKnownGo_subset env mS maxR (getKnownWhaleAddresses mint network) [] [] x hx
      with h0 | h1
    · simp at h0
    · exact h1

/- ------------------------------------------------------------------ -/
/- Claim theorems: tier-3 best effort                                  -/
/- ------------------------------------------------------------------ -/

/-- C1 counterexample: the scan sees a single candidate Z of amount 300
(below the threshold 1000) whose secondary check would pass (1 SOL at a
0.1 SOL threshold), yet the resolver returns the empty list, performs no
secondary check at all, and never returns Z: no largest-so-far candidate
is recorded or verified. -/
theorem tier3_largest_so_far_counterexample :
    (getTokenWhaleAddressesTraced envScanBelowThreshold "M" "mainnet"
        (decOf 1000) pointOne 10).result = .ok []
  ∧ (getTokenWhaleAddressesTraced envScanBelowThreshold "M" "mainnet"
        (decOf 1000) pointOne 10).das.scanChecks = []
  ∧ (getTokenWhaleAddressesTraced envScanBelowThreshold "M" "mainnet"
        (decOf 1000) pointOne 10).das.knownChecks = []
  ∧ itemAmountUi ⟨some "Z", some 300000000, none⟩ = some ⟨300000000, 6⟩
  ∧ Dec10.le (decOf 1000) ⟨300000000, 6⟩ = false
  ∧ envScanBelowThreshold.balanceLamports "Z" = .ok 1000000000
  ∧ Dec10.le pointOne ⟨1000000000, 9⟩ = true := by decide

/-- C1 amended: when the paginated scan collects no qualifying-and-
verified candidate, the resolver does not consult any largest-so-far
candidate; it falls back to the hard-coded known-whale table, so every
address of the returned list is a table entry for the mint (and the
result is empty for a mint without a table entry). -/
theorem tier3_known_table_fallback (env : Env) (mint network : String)
    (mA mS : Dec10) (maxR : Nat)
    (hScan : (getTokenWhaleAddressesTraced env mint network mA mS maxR).das.scanWhales = [])
    (hDas : (getTokenWhaleAddressesTraced env mint network mA mS maxR).usedDas = true) :
    ∃ l, (getTokenWhaleAddressesTraced env mint network mA mS maxR).result = .ok l
      ∧ l ⊆ getKnownWhaleAddresses mint network := by
  rcases resolve_das_split env mint network mA mS maxR with ⟨h1, _⟩ | ⟨_, h2, h3⟩
  · rw [h1] at hDas
    simp at hDas
  · rw [h2] at hScan
    exact ⟨_, h3, dasPagination_result_subset_known env mint network mA mS maxR hScan⟩

/-- Witness for the amended C1 theorem, on the below-threshold scan env
with a mint that has no table entry. -/
theorem tier3_known_table_fallback_witness :
    ∃ l, (getTokenWhaleAddressesTraced envScanBelowThreshold "M" "mainnet"
        (decOf 1000) pointOne 10).result = .ok l
      ∧ l ⊆ getKnownWhaleAddresses "M" "mainnet" :=
  tier3_known_table_fallback envScanBelowThreshold "M" "mainnet"
    (decOf 1000) pointOne 10 (by decide) (by decide)

/-- Invariant of the tier-1 loop: every collected whale passed its
secondary SOL check against env. -/
theorem tier1Go_whales_pass (env : Env) (mA mS : Dec10) (maxR : Nat) :
    ∀ (hs : List TokenLargestAccountItem) (t : TierOneOut),
      (∀ a ∈ t.whales, passesTier1Check env mS a) →
      ∀ a ∈ (tier1Go env mA mS maxR hs t).whales, passesTier1Check env mS a := by
  intro hs
  induction hs with
  | nil =>
    intro t ht a ha
    exact ht a (by simpa [tier1Go] using ha)
  | cons b rest ih =>
    intro t ht a ha
    obtain ⟨bAddr, bAmt⟩ := b
    cases bAddr with
    | none => exact ih t ht a (by simpa [tier1Go] using ha)
    | some addr =>
      cases bAmt with
      | none => exact ih t ht a (by simpa [tier1Go] using ha)
      | some amt =>
        cases hq : Dec10.le mA amt with
        | false =>
          simp only [tier1Go, hq, Bool.false_eq_true, if_false] at ha
          exact ih t ht a ha
        | true =>
          cases hB : env.balanceLamports addr with
          | ok lam =>
            cases hle : Dec10.le mS ⟨lam, 9⟩ with
            | true =>
              have ht' : ∀ x ∈ t.whales ++ [addr], passesTier1Check env mS x := by
                intro x hx
                rcases List.mem_append.mp hx with h | h
                · exact ht x h
                · rcases List.mem_singleton.mp h with rfl
                  exact ⟨lam, hB, hle⟩
              simp only [tier1Go, hq, if_true, hB, hle] at ha
              by_cases hmax : maxR ≤ (t.whales ++ [addr]).length
              · rw [if_pos hmax] at ha
                exact ht' a ha
              · rw [if_neg hmax] at ha
                exact ih ⟨t.whales ++ [addr], t.checks ++ [addr], none⟩ ht' a ha
            | false =>
              simp only [tier1Go, hq, if_true, hB, hle, Bool.false_eq_true, if_false] at ha
              exact ih ⟨t.whales, t.checks ++ [addr], none⟩ ht a ha
          | error e =>
            cases e with
            | valueError =>
              simp only [tier1Go, hq, if_true, hB] at ha
              exact ih ⟨t.whales, t.checks ++ [addr], none⟩ ht a ha
            | typeError =>
              simp only [tier1Go, hq, if_true, hB] at ha
              exact ih ⟨t.whales, t.checks ++ [addr], none⟩ ht a ha
            | runtimeError m =>
              simp only [tier1Go, hq, if_true, hB] at ha
              exact ht a ha
            | otherError =>
              simp only [tier1Go, hq, if_true, hB] at ha
              exact ht a ha

/-- Invariant of the per-page item loop: every collected whale passed its
lamport-threshold check against env. -/
theorem processPageItems_whales_pass (env : Env) (mA mS : Dec10) (maxR : Nat) :
    ∀ (items : List DasItem) (whales checks : List String),
      (∀ a ∈ whales, passesScanCheck env mS a) →
      ∀ a ∈ (processPageItems env mA mS maxR items whales checks).1,
        passesScanCheck env mS a := by
  intro items
  induction items with
  | nil =>
    intro whales checks hw a ha
    exact hw a (by simpa [processPageItems] using ha)
  | cons it rest ih =>
    intro whales checks hw a ha
    by_cases hm : maxR ≤ whales.length
    · simp only [processPageItems, hm, if_true] at ha
      exact hw a ha
    · simp only [processPageItems, hm, if_false] at ha
      cases hO : it.owner with
      | none =>
        simp only [hO] at ha
        exact ih whales checks hw a ha
      | some owner =>
        simp only [hO] at ha
        cases hAmt : itemAmountUi it with
        | none =>
          simp only [hAmt] at ha
          exact ih whales checks hw a ha
        | some amt =>
          simp only [hAmt] at ha
          cases hq : Dec10.le mA amt with
          | false =>
            simp only [hq, Bool.false_eq_true, if_false] at ha
            exact ih whales checks hw a ha
          | true =>
            simp only [hq, if_true] at ha
            cases hB : env.balanceLamports owner with
            | error e =>
              simp only [hB] at ha
              exact ih whales (checks ++ [owner]) hw a ha
            | ok lam =>
              simp only [hB] at ha
              by_cases ht : lamportThreshold mS ≤ lam
              · rw [if_pos ht] at ha
                have hw' : ∀ x ∈ whales ++ [owner], passesScanCheck env mS x := by
                  intro x hx
                  rcases List.mem_append.mp hx with h | h
                  · exact hw x h
                  · rcases List.mem_singleton.mp h with rfl
                    exact ⟨lam, hB, ht⟩
                exact ih (whales ++ [owner]) (checks ++ [owner]) hw' a ha
              · rw [if_neg ht] at ha
                exact ih whales (checks ++ [owner]) hw a ha

/-- Invariant of the DAS while loop: every collected whale passed its
lamport-threshold check against env. -/
theorem dasLoopGo_whales_pass (env : Env) (mA mS : Dec10) (maxR : Nat) :
    ∀ (fuel callIdx : Nat) (t : DasTrace),
      (∀ a ∈ t.whales, passesScanCheck env mS a) →
      ∀ a ∈ (dasLoopGo env mA mS maxR fuel callIdx t).whales,
        passesScanCheck env mS a := by
  intro fuel
  induction fuel with
  | zero =>
    intro idx t ht a ha
    exact ht a (by simpa [dasLoopGo] using ha)
  | succ n ih =>
    intro idx t ht a ha
    by_cases hw : maxR ≤ t.whales.length
    · simp only [dasLoopGo, hw, if_true] at ha
      exact ht a ha
    · simp only [dasLoopGo, hw, if_false] at ha
      cases hp : env.tokenAccountsPage idx with
      | error e =>
        simp only [hp] at ha
        exact ht a ha
      | ok page =>
        simp only [hp] at ha
        have hpp := processPageItems_whales_pass env mA mS maxR page.items
          t.whales t.checks ht
        by_cases hc : cursorTruthy page.cursor
        · rw [if_pos hc] at ha
          exact ih (idx + 1)
            ⟨(processPageItems env mA mS maxR page.items t.whales t.checks).1,
             (processPageItems env mA mS maxR page.items t.whales t.checks).2,
             t.calls + 1⟩ hpp a ha
        · rw [if_neg hc] at ha
          exact hpp a ha

/-- Characterization of resolutions that end in tier 1: the result list
is exactly the whale list of the tier-1 loop. -/
theorem resolve_ok_without_das (env : Env) (mint network : String)
    (mA mS : Dec10) (maxR : Nat) (l : List String)
    (hu : (getTokenWhaleAddressesTraced env mint network mA mS maxR).usedDas = false)
    (hl : (getTokenWhaleAddressesTraced env mint network mA mS maxR).result = .ok l) :
    ∃ largest, env.tokenLargestAccounts = .ok largest
      ∧ l = (tier1Go env mA mS maxR largest ⟨[], [], none⟩).whales := by
  unfold getTokenWhaleAddressesTraced at hu hl
  cases hE : env.tokenLargestAccounts with
  | error e =>
    rw [hE] at hu hl
    cases e with
    | runtimeError m =>
      by_cases hs : strContains m "Too many accounts" = true
      · simp [hs] at hu
      · simp [hs] at hl
    | valueError => simp at hl
    | typeError => simp at hl
    | otherError => simp at hl
  | ok largest =>
    rw [hE] at hu hl
    by_cases hEm : largest.isEmpty
    · simp [hEm] at hu
    · refine ⟨largest, rfl, ?_⟩
      cases hErr : (tier1Go env mA mS maxR largest ⟨[], [], none⟩).err with
      | some e =>
        cases e with
        | runtimeError m =>
          by_cases hs : strContains m "Too many accounts" = true
          · simp [hEm, hErr, hs] at hu
          · simp [hEm, hErr, hs] at hl
        | valueError => simp [hEm, hErr] at hl
        | typeError => simp [hEm, hErr] at hl
        | otherError => simp [hEm, hErr] at hl
      | none =>
        by_cases hW : (tier1Go env mA mS maxR largest ⟨[], [], none⟩).whales.isEmpty
        · simp [hEm, hErr, hW] at hu
        · simp [hEm, hErr, hW] at hl
          exact hl.symm

/- ------------------------------------------------------------------ -/
/- Claim theorems: no partially validated results                      -/
/- ------------------------------------------------------------------ -/

/-- C3 counterexample: with the USDC mint, a failed direct query, an
empty scan, and every SOL balance equal to zero, the resolver checks all
five known-whale table entries, every check fails the 0.1 SOL threshold,
and the resolver nevertheless returns those five addresses: unverified
data is returned. -/
theorem resolver_returns_unverified_known_whales :
    (getTokenWhaleAddressesTraced envKnownAllFail
        "EPjFWdd5AufqSSqeM2qN1xzybapC8G4wEGGkZwyTDt1v" "mainnet"
        (decOf 1000) pointOne 10).result
      = .ok [ "BQy5rNRxLfcaK6554PMzsg4VJsFXzwGnAnayb8TZKgZX"
            , "CqCDNi1PSB7cP3rDxU12YKjVDqbJeZ9rGhxZxkkwi6mC"
            , "9RfZwn2Prux6QesG1Noo4HzMEBkMvoYdkLRMKEZf86tT"
            , "H8W3ctz92svYXCbxDdZGTCm66RBkXqudLV8Xjhj8HBJd"
            , "9WzDXwBbmkg8ZTbNMqUxvQRAyrZzDsGYdLVL9zYtAWWM" ]
  ∧ (getTokenWhaleAddressesTraced envKnownAllFail
        "EPjFWdd5AufqSSqeM2qN1xzybapC8G4wEGGkZwyTDt1v" "mainnet"
        (decOf 1000) pointOne 10).das.knownChecks
      = [ "BQy5rNRxLfcaK6554PMzsg4VJsFXzwGnAnayb8TZKgZX"
        , "CqCDNi1PSB7cP3rDxU12YKjVDqbJeZ9rGhxZxkkwi6mC"
        , "9RfZwn2Prux6QesG1Noo4HzMEBkMvoYdkLRMKEZf86tT"
        , "H8W3ctz92svYXCbxDdZGTCm66RBkXqudLV8Xjhj8HBJd"
        , "9WzDXwBbmkg8ZTbNMqUxvQRAyrZzDsGYdLVL9zYtAWWM" ]
  ∧ envKnownAllFail.balanceLamports "BQy5rNRxLfcaK6554PMzsg4VJsFXzwGnAnayb8TZKgZX"
      = .ok 0
  ∧ lamportThreshold pointOne = 100000000
  ∧ ¬ (lamportThreshold pointOne ≤ 0) := by decide

/-- C3 amended: every address the resolver returns from tier 1 passed
the SOL check during the resolution, and every address the paginated scan
collects passed the lamport-threshold check; only the final known-whale
fallback can return addresses whose check failed (when no table entry
passes). -/
theorem resolver_scan_results_verified (env : Env) (mint network : String)
    (mA mS : Dec10) (maxR : Nat) :
    ((getTokenWhaleAddressesTraced env mint network mA mS maxR).usedDas = false →
      ∀ l, (getTokenWhaleAddressesTraced env mint network mA mS maxR).result = .ok l →
      ∀ a ∈ l, passesTier1Check env mS a)
  ∧ (∀ a ∈ (getTokenWhaleAddressesTraced env mint network mA mS maxR).das.scanWhales,
      passesScanCheck env mS a) := by
  constructor
  · intro hu l hl a ha
    obtain ⟨largest, _, rfl⟩ := resolve_ok_without_das env mint network mA mS maxR l hu hl
    exact tier1Go_whales_pass env mA mS maxR largest ⟨[], [], none⟩ (by simp) a ha
  · intro a ha
    rcases resolve_das_split env mint network mA mS maxR with ⟨_, h2⟩ | ⟨_, h2, _⟩
    · rw [h2] at ha
      simp [emptyDasResultTrace] at ha
    · rw [h2, (getWhalesViaDasPagination_scan env mint network mA mS maxR).2] at ha
      exact dasLoopGo_whales_pass env mA mS maxR maxDasIterations 0 ⟨[], [], 0⟩
        (by simp) a ha

/-- Witness for the amended C3 theorem: the single tier-1 winner passed
its SOL check. -/
theorem resolver_scan_results_verified_witness :
    passesTier1Check envOneWinner pointOne "A" :=
  (resolver_scan_results_verified envOneWinner "M" "mainnet"
      (decOf 1000) pointOne 10).1 (by decide) ["A"] (by decide) "A" (by decide)

/- ------------------------------------------------------------------ -/
/- Claim theorems: per-page verification sequencing                    -/
/- ------------------------------------------------------------------ -/

/-- C9 counterexample: on a page with two qualifying candidates A and B
whose checks both succeed, the resolver performs the check on B after the
check on A already returned true, and it returns both addresses instead
of returning the address of A without waiting: there is no
first-success-wins cancellation. -/
theorem page_checks_continue_after_success :
    (getTokenWhaleAddressesTraced envTwoQualifying "M" "mainnet"
        (decOf 1000) pointOne 10).das.scanChecks = ["A", "B"]
  ∧ (getTokenWhaleAddressesTraced envTwoQualifying "M" "mainnet"
        (decOf 1000) pointOne 10).result = .ok ["A", "B"]
  ∧ envTwoQualifying.balanceLamports "A" = .ok 1000000000
  ∧ lamportThreshold pointOne ≤ 1000000000 := by decide

/-- C9 amended: per-page verification is sequential, one balance check at
a time in page order: the check trace extends in order by a sublist of
the qualifying owners of the page, and when the page ends below
max_results (so the collection break is never taken) every qualifying
owner is checked — a successful check does not cancel or skip the
remaining candidates. -/
theorem page_checks_sequential_order (env : Env) (mA mS : Dec10) (maxR : Nat) :
    ∀ (items : List DasItem) (whales checks : List String),
      ∃ l, (processPageItems env mA mS maxR items whales checks).2 = checks ++ l
        ∧ l.Sublist (qualifyingOwners mA items)
        ∧ ((processPageItems env mA mS maxR items whales checks).1.length < maxR →
            l = qualifyingOwners mA items) := by
  intro items
  induction items with
  | nil =>
    intro whales checks
    exact ⟨[], by simp [processPageItems], by simp [qualifyingOwners],
      fun _ => by simp [qualifyingOwners]⟩
  | cons it rest ih =>
    intro whales checks
    by_cases hm : maxR ≤ whales.length
    · refine ⟨[], by simp [processPageItems, hm], List.nil_sublist _, fun hlt => ?_⟩
      simp only [processPageItems, hm, if_true] at hlt
      omega
    · cases hO : it.owner with
      | none =>
        have hstep : processPageItems env mA mS maxR (it :: rest) whales checks
            = processPageItems env mA mS maxR rest whales checks := by
          simp only [processPageItems, hm, if_false, hO]
        have hQ : qualifyingOwners mA (it :: rest) = qualifyingOwners mA rest := by
          simp [qualifyingOwners, hO]
        rw [hstep, hQ]
        exact ih whales checks
      | some owner =>
        cases hAmt : itemAmountUi it with
        | none =>
          have hstep : processPageItems env mA mS maxR (it :: rest) whales checks
              = processPageItems env mA mS maxR rest whales checks := by
            simp only [processPageItems, hm, if_false, hO, hAmt]
          have hQ : qualifyingOwners mA (it :: rest) = qualifyingOwners mA rest := by
            simp [qualifyingOwners, hO, hAmt]
          rw [hstep, hQ]
          exact ih whales checks
        | some amt =>
          cases hq : Dec10.le mA amt with
          | false =>
            have hstep : processPageItems env mA mS maxR (it :: rest) whales checks
                = processPageItems env mA mS maxR rest whales checks := by
              simp only [processPageItems, hm, if_false, hO, hAmt, hq,
                Bool.false_eq_true, if_false]
            have hQ : qualifyingOwners mA (it :: rest) = qualifyingOwners mA rest := by
              simp [qualifyingOwners, hO, hAmt, hq]
            rw [hstep, hQ]
            exact ih whales checks
          | true =>
            have hQ : qualifyingOwners mA (it :: rest)
                = owner :: qualifyingOwners mA rest := by
              simp [qualifyingOwners, hO, hAmt, hq]
            cases hB : env.balanceLamports owner with
            | error e =>
              have hstep : processPageItems env mA mS maxR (it :: rest) whales checks
                  = processPageItems env mA mS maxR rest whales (checks ++ [owner]) := by
                simp only [processPageItems, hm, if_false, hO, hAmt, hq, if_true, hB]
              rw [hstep, hQ]
              obtain ⟨l, h1, h2, h3⟩ := ih whales (checks ++ [owner])
              exact ⟨owner :: l, by rw [h1]; simp, List.Sublist.cons₂ owner h2,
                fun hlt => by rw [h3 hlt]⟩
            | ok lam =>
              by_cases ht : lamportThreshold mS ≤ lam
              · have hstep : processPageItems env mA mS maxR (it :: rest) whales checks
                    = processPageItems env mA mS maxR rest (whales ++ [owner])
                        (checks ++ [owner]) := by
                  simp only [processPageItems, hm, if_false, hO, hAmt, hq, if_true, hB]
                  rw [if_pos ht]
                rw [hstep, hQ]
                obtain ⟨l, h1, h2, h3⟩ := ih (whales ++ [owner]) (checks ++ [owner])
                exact ⟨owner :: l, by rw [h1]; simp, List.Sublist.cons₂ owner h2,
                  fun hlt => by rw [h3 hlt]⟩
              · have hstep : processPageItems env mA mS maxR (it :: rest) whales checks
                    = processPageItems env mA mS maxR rest whales (checks ++ [owner]) := by
                  simp only [processPageItems, hm, if_false, hO, hAmt, hq, if_true, hB]
                  rw [if_neg ht]
                rw [hstep, hQ]
                obtain ⟨l, h1, h2, h3⟩ := ih whales (checks ++ [owner])
                exact ⟨owner :: l, by rw [h1]; simp, List.Sublist.cons₂ owner h2,
                  fun hlt => by rw [h3 hlt]⟩

/-- Witness for the amended C9 theorem, on the two-qualifying-candidate
page. -/
theorem page_checks_sequential_order_witness :
    ∃ l, (processPageItems envTwoQualifying (decOf 1000) pointOne 10
          [⟨some "A", some 2000000000, none⟩, ⟨some "B", some 3000000000, none⟩]
          [] []).2 = [] ++ l
      ∧ l.Sublist (qualifyingOwners (decOf 1000)
          [⟨some "A", some 2000000000, none⟩, ⟨some "B", some 3000000000, none⟩])
      ∧ ((processPageItems envTwoQualifying (decOf 1000) pointOne 10
            [⟨some "A", some 2000000000, none⟩, ⟨some "B", some 3000000000, none⟩]
            [] []).1.length < 10 →
          l = qualifyingOwners (decOf 1000)
            [⟨some "A", some 2000000000, none⟩, ⟨some "B", some 3000000000, none⟩]) :=
  page_checks_sequential_order envTwoQualifying (decOf 1000) pointOne 10
    [⟨some "A", some 2000000000, none⟩, ⟨some "B", some 3000000000, none⟩] [] []

/- ------------------------------------------------------------------ -/
/- Claim theorems: too-many-accounts classification                    -/
/- ------------------------------------------------------------------ -/

/-- C7 counterexample: two envelope errors with the same code whose
messages differ only in wording (capitalization) are routed differently:
the canonical wording falls through to the DAS tier while the lower-case
wording is re-raised as the same untyped RuntimeError.  Tier selection
therefore string-matches the wording of the upstream error text; no
typed TooManyAccountsError is produced. -/
theorem too_many_accounts_wording_sensitivity :
    (getTokenWhaleAddressesTraced envTooManyExact "M" "mainnet"
        (decOf 1000) pointOne 10).usedDas = true
  ∧ (getTokenWhaleAddressesTraced envTooManyLower "M" "mainnet"
        (decOf 1000) pointOne 10).usedDas = false
  ∧ (getTokenWhaleAddressesTraced envTooManyLower "M" "mainnet"
        (decOf 1000) pointOne 10).result
      = .error (.runtimeError (rpcRuntimeErrorMessage ⟨-32602, "too many accounts"⟩)) := by
  decide

/-- C7 amended: the gateway raises one generic RuntimeError for every
envelope error, and the resolver selects the DAS fallback exactly when
the raised text contains the substring of services.py line 384,
re-raising the error otherwise: tier selection is decided by substring
matching on the error text. -/
theorem too_many_accounts_substring_routing (env : Env) (mint network : String)
    (mA mS : Dec10) (maxR : Nat) (m : String)
    (hEnv : env.tokenLargestAccounts = .error (.runtimeError m)) :
    (strContains m "Too many accounts" = true →
      (getTokenWhaleAddressesTraced env mint network mA mS maxR).usedDas = true)
  ∧ (strContains m "Too many accounts" = false →
      (getTokenWhaleAddressesTraced env mint network mA mS maxR).result
        = .error (.runtimeError m))
  ∧ ∀ e : RpcErrorObj, heliusRpc (α := Unit) (.withError e)
      = .error (.runtimeError (rpcRuntimeErrorMessage e)) := by
  refine ⟨?_, ?_, fun e => rfl⟩
  · intro h
    unfold getTokenWhaleAddressesTraced
    rw [hEnv]
    simp [h]
  · intro h
    unfold getTokenWhaleAddressesTraced
    rw [hEnv]
    simp [h]

/-- Witness for the amended C7 theorem: the canonical wording reaches the
DAS tier. -/
theorem too_many_accounts_substring_routing_witness :
    (getTokenWhaleAddressesTraced envTooManyExact "M" "mainnet"
        (decOf 1000) pointOne 10).usedDas = true :=
  (too_many_accounts_substring_routing envTooManyExact "M" "mainnet"
      (decOf 1000) pointOne 10
      (rpcRuntimeErrorMessage ⟨-32602, "Too many accounts"⟩) rfl).1 (by decide)

/- ------------------------------------------------------------------ -/
/- Claim theorems: scan decimals                                       -/
/- ------------------------------------------------------------------ -/

/-- C4 counterexample: an item with raw amount 10^9 and no page-supplied
decimals for an asset whose decimal precision is 9: the code computes
10^9 / 10^6 = 1000 with its hard-coded default of 6 decimals, while the
spec computation with assetDecimals = 9 yields 1; the two amounts differ
and no assetDecimals fetch exists in the scan. -/
theorem scan_decimals_fixed_default_counterexample :
    itemAmountUi ⟨some "W", some 1000000000, none⟩ = some ⟨1000000000, 6⟩
  ∧ specItemAmountUi 9 ⟨some "W", some 1000000000, none⟩ = some ⟨1000000000, 9⟩
  ∧ itemAmountUi ⟨some "W", some 1000000000, none⟩
      ≠ specItemAmountUi 9 ⟨some "W", some 1000000000, none⟩
  ∧ Dec10.le ⟨1000000000, 6⟩ ⟨1000000000, 9⟩ = false := by decide

/-- C4 amended: the code computes every scan amount exactly as the spec
computation would if assetDecimals always returned the hard-coded
default 6: page-supplied decimal metadata is preferred, and otherwise
the constant 6 is used — no assetDecimals value is ever fetched. -/
theorem scan_amount_matches_spec_with_constant_six (it : DasItem) :
    itemAmountUi it = specItemAmountUi 6 it := by
  obtain ⟨owner, amount, balance⟩ := it
  cases balance with
  | none => cases amount <;> rfl
  | some b =>
    obtain ⟨ui, dec⟩ := b
    cases ui <;> cases dec <;> cases amount <;> rfl
